import Mathlib

/-!
Verification development for the mtg-proxy-api-server deck resolution cache.

The definitions below are a shallow embedding of the JavaScript source:

* `jsOrS`, `jsTruthyS`, `jsOrNullS`, `jsOrStr` model JavaScript truthiness
  (`x || y`, `x || null`, `if (x)`) on strings, where only the empty string
  is falsy.
* `sha1Hex`, `hashJSON` model `crypto.createHash('sha1')...digest('hex')`
  over the UTF-8 bytes of a JSON string, as used by the source's `hashJSON`.
* The deck cache record model, freshness policy, hydration loops and the
  resolve decision procedure are translated from the `getDeckCached` /
  `buildAndCache` / `scrapeArchidekt` / `hydrateRowsToPayload` family of
  functions in the source.
-/

set_option autoImplicit false

/-- Model of the JavaScript expression `a || b` where `a` is a string or
null/undefined: the empty string is falsy, so it falls through to `b`. -/
def jsOrS (a b : Option String) : Option String :=
  match a with
  | some s => if s = "" then b else some s
  | none => b

/-- Model of JavaScript truthiness `if (x)` for a string-or-null value:
true exactly when the value is a non-empty string. -/
def jsTruthyS (a : Option String) : Bool :=
  match a with
  | some s => decide (s ≠ "")
  | none => false

/-- Model of the JavaScript expression `x || null` for a string-or-null
value: normalizes the falsy empty string to null. -/
def jsOrNullS (a : Option String) : Option String :=
  jsOrS a none

/-- Model of the JavaScript expression `s || d` for plain strings
(used e.g. as `c.category || 'Uncategorized'`). -/
def jsOrStr (s d : String) : String :=
  if s = "" then d else s

/-! SHA-1, modelling node's `crypto.createHash('sha1')` on UTF-8 input.
All words are `Nat` kept below `2 ^ 32` by explicit `% 4294967296`. -/

/-- Left-rotation of a 32-bit word represented as a `Nat`. -/
def rotl32 (n x : Nat) : Nat :=
  Nat.lor ((x <<< n) % 4294967296) (x >>> (32 - n))

/-- UTF-8 encoding of a Unicode code point as a list of byte values. -/
def utf8EncodeChar (n : Nat) : List Nat :=
  if n < 128 then [n]
  else if n < 2048 then [192 + n / 64, 128 + n % 64]
  else if n < 65536 then [224 + n / 4096, 128 + (n / 64) % 64, 128 + n % 64]
  else [240 + n / 262144, 128 + (n / 4096) % 64, 128 + (n / 64) % 64, 128 + n % 64]

/-- UTF-8 bytes of a string. -/
def utf8Bytes (s : String) : List Nat :=
  s.data.foldl (fun acc c => acc ++ utf8EncodeChar c.toNat) []

/-- Big-endian byte representation of `n` in `k` bytes. -/
def beBytes (k n : Nat) : List Nat :=
  (List.range k).map (fun i => (n >>> (8 * (k - 1 - i))) % 256)

/-- SHA-1 message padding: append `0x80`, zero padding, and the 64-bit
big-endian bit length so that the total length is a multiple of 64. -/
def sha1Pad (msg : List Nat) : List Nat :=
  let len := msg.length
  let padLen := (64 - ((len + 9) % 64)) % 64
  msg ++ [128] ++ List.replicate padLen 0 ++ beBytes 8 (len * 8)

/-- Split a byte list into 64-byte blocks (fuel-indexed recursion). -/
def chunk64 : Nat → List Nat → List (List Nat)
  | 0, _ => []
  | _, [] => []
  | fuel + 1, l => l.take 64 :: chunk64 fuel (l.drop 64)

/-- Big-endian 32-bit word from a list of bytes. -/
def beWord (b : List Nat) : Nat :=
  b.foldl (fun acc x => acc * 256 + x) 0

/-- The sixteen initial schedule words of a 64-byte block. -/
def blockWords (block : List Nat) : List Nat :=
  (List.range 16).map (fun i => beWord ((block.drop (4 * i)).take 4))

/-- Extension of the SHA-1 message schedule by `fuel` further words. -/
def extendWords : Nat → List Nat → List Nat
  | 0, w => w
  | fuel + 1, w =>
    let n := w.length
    let wi := rotl32 1 (Nat.xor (Nat.xor (w.getD (n - 3) 0) (w.getD (n - 8) 0))
      (Nat.xor (w.getD (n - 14) 0) (w.getD (n - 16) 0)))
    extendWords fuel (w ++ [wi])

/-- The full 80-word SHA-1 message schedule of one block. -/
def sha1Schedule (block : List Nat) : List Nat :=
  extendWords 64 (blockWords block)

/-- Round function and constant for SHA-1 round `i`. -/
def sha1FK (i b c d : Nat) : Nat × Nat :=
  if i < 20 then (Nat.lor (Nat.land b c) (Nat.land (Nat.xor b 4294967295) d), 1518500249)
  else if i < 40 then (Nat.xor (Nat.xor b c) d, 1859775393)
  else if i < 60 then
    (Nat.lor (Nat.lor (Nat.land b c) (Nat.land b d)) (Nat.land c d), 2400959708)
  else (Nat.xor (Nat.xor b c) d, 3395469782)

/-- Compression of one 64-byte block into the running SHA-1 state. -/
def sha1Block (h : Nat × Nat × Nat × Nat × Nat) (block : List Nat) :
    Nat × Nat × Nat × Nat × Nat :=
  let ws := sha1Schedule block
  let fin := ws.enum.foldl
    (fun (st : Nat × Nat × Nat × Nat × Nat) (iw : Nat × Nat) =>
      let (a, b, c, d, e) := st
      let (f, k) := sha1FK iw.1 b c d
      let temp := (rotl32 5 a + f + e + k + iw.2) % 4294967296
      (temp, a, rotl32 30 b, c, d))
    h
  ((h.1 + fin.1) % 4294967296,
   (h.2.1 + fin.2.1) % 4294967296,
   (h.2.2.1 + fin.2.2.1) % 4294967296,
   (h.2.2.2.1 + fin.2.2.2.1) % 4294967296,
   (h.2.2.2.2 + fin.2.2.2.2) % 4294967296)

/-- Hexadecimal digit character. -/
def hexDigit (n : Nat) : Char :=
  if n < 10 then Char.ofNat (48 + n) else Char.ofNat (87 + n)

/-- Eight-hex-digit rendering of a 32-bit word. -/
def wordHex (x : Nat) : String :=
  String.mk ((List.range 8).map (fun i => hexDigit ((x >>> (28 - 4 * i)) % 16)))

/-- SHA-1 of a string's UTF-8 bytes, as a 40-character lowercase hex digest. -/
def sha1Hex (s : String) : String :=
  let msg := sha1Pad (utf8Bytes s)
  let h := (chunk64 (msg.length + 1) msg).foldl sha1Block
    (1732584193, 4023233417, 2562383102, 271733878, 3285377520)
  wordHex h.1 ++ wordHex h.2.1 ++ wordHex h.2.2.1 ++ wordHex h.2.2.2.1 ++ wordHex h.2.2.2.2

/-- Model of the source's `hashJSON`: SHA-1 hex digest of the JSON
serialization (the caller supplies the `JSON.stringify` output). -/
def hashJSON (s : String) : String :=
  sha1Hex s

/-! Data model of the deck cache, translated from the source's record shapes. -/

/-- One hydrated card entry of the Archidekt payload, i.e. the object
`\x7b...card, img, backImg\x7d` pushed in `scrapeArchidekt`'s hydration loop
(field order: name, quantity, foil, setCode, collectorNumber, category,
img, backImg). -/
structure Entry where
  name : String
  quantity : Nat
  foil : Bool
  setCode : String
  collectorNumber : String
  category : String
  img : String
  backImg : Option String
deriving DecidableEq

/-- The deck payload `\x7bimages, categoryOrder, deckHash, provider, deckId\x7d`
returned by the scrapers. -/
structure Payload where
  images : List Entry
  categoryOrder : List String
  deckHash : String
  provider : String
  deckId : String
deriving DecidableEq

/-- A deck cache record, as documented at the top of the source:
`\x7bpayload, etag, deckHash, freshUntil, swrUntil, pageSig\x7d`. -/
structure CacheRecord where
  payload : Payload
  etag : String
  deckHash : String
  freshUntil : Nat
  swrUntil : Nat
  pageSig : Option String
deriving DecidableEq

/-- `FRESH_TTL_MS = 5 * 60 * 1000` from the source. -/
def FRESH_TTL_MS : Nat := 5 * 60 * 1000

/-- `SWR_TTL_MS = 60 * 60 * 1000` from the source. -/
def SWR_TTL_MS : Nat := 60 * 60 * 1000

/-! JSON serialization, modelling `JSON.stringify` on the object shapes the
source passes to `hashJSON`. Braces in the produced JSON text are written
with `\x7b` / `\x7d` escapes. -/

/-- JSON string escaping for quote and backslash. -/
def jsonEsc (s : String) : String :=
  s.data.foldl
    (fun acc c =>
      acc ++ (if c = '"' then "\\\"" else if c = '\\' then "\\\\" else String.singleton c))
    ""

/-- A JSON string literal. -/
def jsonStr (s : String) : String :=
  "\"" ++ jsonEsc s ++ "\""

/-- A JSON boolean literal. -/
def jsonBool (b : Bool) : String :=
  if b then "true" else "false"

/-- A JSON array from already-serialized elements. -/
def jsonArr (elts : List String) : String :=
  "[" ++ String.intercalate "," elts ++ "]"

/-- `JSON.stringify` of one hydrated entry, with fields in the insertion
order produced by `\x7b...card, img, backImg\x7d`. -/
def jsonOfEntry (e : Entry) : String :=
  "\x7b\"name\":" ++ jsonStr e.name ++
  ",\"quantity\":" ++ toString e.quantity ++
  ",\"foil\":" ++ jsonBool e.foil ++
  ",\"setCode\":" ++ jsonStr e.setCode ++
  ",\"collectorNumber\":" ++ jsonStr e.collectorNumber ++
  ",\"category\":" ++ jsonStr e.category ++
  ",\"img\":" ++ jsonStr e.img ++
  ",\"backImg\":" ++ (match e.backImg with | some s => jsonStr s | none => "null") ++
  "\x7d"

/-- `JSON.stringify(\x7b images: payload.images, categoryOrder: payload.categoryOrder \x7d)`,
the exact argument `weakEtagForPayload` feeds to `hashJSON`. -/
def jsonOfImagesCat (images : List Entry) (categoryOrder : List String) : String :=
  "\x7b\"images\":" ++ jsonArr (images.map jsonOfEntry) ++
  ",\"categoryOrder\":" ++ jsonArr (categoryOrder.map jsonStr) ++ "\x7d"

/-- The source's `weakEtagForPayload`: a weak ETag over only the stable
client-visible parts of the payload (`images` and `categoryOrder`). -/
def weakEtagForPayload (p : Payload) : String :=
  "W/\"" ++ hashJSON (jsonOfImagesCat p.images p.categoryOrder) ++ "\""

/-- The source's `makeCacheRecord(payload, pageSig)`, with `Date.now()`
passed explicitly as `now`; `pageSig || null` normalizes a falsy signature
to null. -/
def makeCacheRecord (payload : Payload) (pageSig : Option String) (now : Nat) : CacheRecord :=
  { payload := payload
    etag := weakEtagForPayload payload
    deckHash := payload.deckHash
    freshUntil := now + FRESH_TTL_MS
    swrUntil := now + SWR_TTL_MS
    pageSig := jsOrNullS pageSig }

/-- The source's `isFresh(rec)`: `rec && Date.now() < rec.freshUntil`. -/
def isFresh (rec : Option CacheRecord) (now : Nat) : Bool :=
  match rec with
  | some r => decide (now < r.freshUntil)
  | none => false

/-- The source's `withinSWR(rec)`: `rec && Date.now() < rec.swrUntil`. -/
def withinSWR (rec : Option CacheRecord) (now : Nat) : Bool :=
  match rec with
  | some r => decide (now < r.swrUntil)
  | none => false

/-- The source's `bumpFreshness(rec)`: renews `freshUntil` and `swrUntil`
forward from now, leaving every other field as it was. (In the source this
mutates `rec` in place; the aliasing consequences are modelled separately
by `DeckStore.renewBySig` below.) -/
def bumpFreshness (rec : CacheRecord) (now : Nat) : CacheRecord :=
  { rec with freshUntil := now + FRESH_TTL_MS, swrUntil := now + SWR_TTL_MS }

/-! Scryfall card data and the hydration loop of `scrapeArchidekt`. -/

/-- One element of a Scryfall card's `card_faces` array (only the field the
source reads). -/
structure CardFace where
  image_uris_normal : Option String
deriving DecidableEq

/-- The part of a Scryfall card response the hydration loop reads:
`image_uris.normal` and `card_faces`. -/
structure ScryData where
  image_uris_normal : Option String
  card_faces : List CardFace
deriving DecidableEq

/-- Front/back image selection from `scrapeArchidekt` / `hydrateRowsToPayload`:
with two or more faces, the front is `card_faces[0]?.image_uris?.normal ||
data.image_uris?.normal || null` and the back is
`card_faces[1]?.image_uris?.normal || null`; otherwise the front is
`data.image_uris?.normal || null` and there is no back. -/
def jsFrontBack (d : ScryData) : Option String × Option String :=
  match d.card_faces with
  | f0 :: f1 :: _ =>
    (jsOrS f0.image_uris_normal (jsOrS d.image_uris_normal none),
     jsOrS f1.image_uris_normal none)
  | _ => (jsOrS d.image_uris_normal none, none)

/-- One raw card row extracted by `scrapeArchidekt`'s page evaluation:
`\x7bname, quantity, foil, setCode, collectorNumber, category\x7d`. -/
structure Row where
  name : String
  quantity : Nat
  foil : Bool
  setCode : String
  collectorNumber : String
  category : String
deriving DecidableEq

/-- The entry pushed for a row whose hydration found a front image. -/
def entryOfRow (card : Row) (front : String) (back : Option String) : Entry :=
  { name := card.name
    quantity := card.quantity
    foil := card.foil
    setCode := card.setCode
    collectorNumber := card.collectorNumber
    category := card.category
    img := front
    backImg := back }

/-- The per-row outcome of one iteration of `scrapeArchidekt`'s hydration
loop: `none` when `fetchScryfallCard` throws (the `catch` swallows the
error) or when no front image was found; otherwise the pushed entry. -/
def hydrateOne (lookup : String → String → Except String ScryData) (card : Row) :
    Option Entry :=
  match lookup card.setCode card.collectorNumber with
  | .error _ => none
  | .ok d =>
    match jsFrontBack d with
    | (some u, back) => some (entryOfRow card u back)
    | (none, _) => none

/-- The body of one iteration of `scrapeArchidekt`'s hydration loop. -/
def hydStep (lookup : String → String → Except String ScryData)
    (images : List Entry) (card : Row) : List Entry :=
  match lookup card.setCode card.collectorNumber with
  | .error _ => images
  | .ok d =>
    match jsFrontBack d with
    | (some u, back) => images ++ [entryOfRow card u back]
    | (none, _) => images

/-- The hydration loop of `scrapeArchidekt` (source lines 261-288): iterate
the rows in order, appending an entry for each row whose Scryfall lookup
succeeds and yields a front image, and skipping (without raising) every
other row. -/
def hydrateImages (lookup : String → String → Except String ScryData)
    (rows : List Row) : List Entry :=
  rows.foldl (hydStep lookup) []

/-- One step of JavaScript `Set` insertion-order deduplication. -/
def dedupStep (acc : List String) (c : String) : List String :=
  if c ∈ acc then acc else acc ++ [c]

/-- `Array.from(new Set(l))`: deduplication keeping first occurrences in
order. -/
def dedupFirstSeen (l : List String) : List String :=
  l.foldl dedupStep []

/-- The `categoryOrder` computed by `scrapeArchidekt` (source line 290):
first-seen deduplication over the categories of the *hydrated* images,
with the falsy-empty category defaulted to `"Uncategorized"`. -/
def archidektCategoryOrder (images : List Entry) : List String :=
  dedupFirstSeen (images.map (fun c => jsOrStr c.category "Uncategorized"))

/-- `JSON.stringify` of the row tuple array hashed into `deckHash` by
`scrapeArchidekt`. -/
def jsonOfRowTuples (rows : List Row) : String :=
  jsonArr (rows.map (fun r =>
    "[" ++ jsonStr r.name ++ "," ++ toString r.quantity ++ "," ++ jsonBool r.foil ++
    "," ++ jsonStr r.setCode ++ "," ++ jsonStr r.collectorNumber ++
    "," ++ jsonStr r.category ++ "]"))

/-- The payload assembled by `scrapeArchidekt` from the extracted rows and
the Scryfall lookup outcomes. -/
def scrapeArchidektPayload (lookup : String → String → Except String ScryData)
    (rows : List Row) (deckId : String) : Payload :=
  let images := hydrateImages lookup rows
  { images := images
    categoryOrder := archidektCategoryOrder images
    deckHash := hashJSON (jsonOfRowTuples rows)
    provider := "archidekt"
    deckId := deckId }

/-- Modelled from the spec: "category ordering preserved from first-seen
order in the raw rows" — the distinct categories of the *raw extracted
rows*, deduplicated in first-seen order. Used only to compare the spec's
wording against the code's `archidektCategoryOrder`. -/
def specRawFirstSeenCategoryOrder (rows : List Row) : List String :=
  dedupFirstSeen (rows.map (fun r => jsOrStr r.category "Uncategorized"))

/-! The `hydrateRowsToPayload` hydration of the Archidekt-API snapshot
(`parseArchidektRows` rows carry a categories array and nullable printing
identifiers, and the Scryfall lookup falls back from set/collector-number
to exact name). -/

/-- One parsed Archidekt API row, as produced by `parseArchidektRows`. -/
structure Row7 where
  name : String
  quantity : Nat
  foil : Bool
  categories : List String
  category : String
  setCode : Option String
  collectorNumber : Option String
deriving DecidableEq

/-- One hydrated entry pushed by `hydrateRowsToPayload`. -/
structure Entry7 where
  name : String
  quantity : Nat
  foil : Bool
  categories : List String
  category : String
  setCode : Option String
  collectorNumber : Option String
  img : String
  backImg : Option String
deriving DecidableEq

/-- The card-data lookup of one `hydrateRowsToPayload` iteration: when the
row has truthy `setCode` and `collectorNumber`, try the set/number endpoint
and fall back to the exact-name endpoint on failure; otherwise go straight
to the exact-name endpoint. A failure of the chosen final endpoint is the
row's failure. -/
def rowScryData (bySetNum : String → String → Except String ScryData)
    (byName : String → Except String ScryData) (card : Row7) :
    Except String ScryData :=
  if jsTruthyS card.setCode && jsTruthyS card.collectorNumber then
    match card.setCode, card.collectorNumber with
    | some s, some cn =>
      match bySetNum s cn with
      | .ok d => .ok d
      | .error _ => byName card.name
    | _, _ => byName card.name
  else byName card.name

/-- The front image the hydration finds for a row, if any: none when the
lookup fails or when the returned card data carries no normal front image
URI. -/
def rowFront (bySetNum : String → String → Except String ScryData)
    (byName : String → Except String ScryData) (card : Row7) : Option String :=
  match rowScryData bySetNum byName card with
  | .error _ => none
  | .ok d => (jsFrontBack d).1

/-- The entry pushed for a `Row7` whose hydration found a front image. -/
def entryOfRow7 (card : Row7) (front : String) (back : Option String) : Entry7 :=
  { name := card.name
    quantity := card.quantity
    foil := card.foil
    categories := card.categories
    category := card.category
    setCode := card.setCode
    collectorNumber := card.collectorNumber
    img := front
    backImg := back }

/-- Per-row outcome of one `hydrateRowsToPayload` iteration. -/
def hydrateOne7 (bySetNum : String → String → Except String ScryData)
    (byName : String → Except String ScryData) (card : Row7) : Option Entry7 :=
  match rowScryData bySetNum byName card with
  | .error _ => none
  | .ok d =>
    match jsFrontBack d with
    | (some u, back) => some (entryOfRow7 card u back)
    | (none, _) => none

/-- The body of one iteration of `hydrateRowsToPayload`'s loop. -/
def hyd7Step (bySetNum : String → String → Except String ScryData)
    (byName : String → Except String ScryData)
    (images : List Entry7) (card : Row7) : List Entry7 :=
  match rowScryData bySetNum byName card with
  | .error _ => images
  | .ok d =>
    match jsFrontBack d with
    | (some u, back) => images ++ [entryOfRow7 card u back]
    | (none, _) => images

/-- The image list built by `hydrateRowsToPayload`: rows in order, pushing
an entry for each row whose lookup succeeded with a front image, silently
skipping every other row (the `catch` only logs). -/
def hydrate7Images (bySetNum : String → String → Except String ScryData)
    (byName : String → Except String ScryData) (rows : List Row7) : List Entry7 :=
  rows.foldl (hyd7Step bySetNum byName) []

/-! Functional model of `getDeckCached` (the preflight-signature snapshot)
and of the `getDeckCached` in `server.js` (the stale-fallback snapshot).
A call is modelled as a function of the state it reads (the cached record
for its key, whether a build for the key is in flight, the clock) and of
the outcomes of its outbound suspensions (the preflight signature, the
scrape, the post-build signature fetch, the awaited in-flight build).
`cacheAfter` records the cache content for the key after this call's own
writes. -/

deriving instance DecidableEq for Except

/-- Observable outcome of one `getDeckCached` call for one key. -/
structure ResolveOutcome where
  result : Except String CacheRecord
  cacheAfter : Option CacheRecord
  sigProbed : Bool
  startedBuild : Bool
  awaitedExisting : Bool
  scheduledBackground : Bool
deriving DecidableEq

/-- The source's `buildAndCache`: scrape, then keep the preflight signature
when truthy, otherwise use the post-build signature fetch, and construct
the record. A scrape failure rejects without writing the cache. -/
def buildAndCache (scrape : Except String Payload) (preSig postSig : Option String)
    (now : Nat) : Except String CacheRecord :=
  match scrape with
  | .error e => .error e
  | .ok p =>
    let pageSig := match jsOrNullS preSig with
      | some s => some s
      | none => postSig
    .ok (makeCacheRecord p pageSig now)

/-- The blocking tail of the preflight snapshot's `getDeckCached` (source
lines 392-400): dedupe through the in-flight map and await; note this
snapshot has no stale fallback on failure. -/
def blockingRebuildSig (cached : Option CacheRecord) (inFlightHas : Bool)
    (sig : Option String) (scrape : Except String Payload) (postSig : Option String)
    (existing : Except String CacheRecord) (now : Nat) : ResolveOutcome :=
  if inFlightHas then
    { result := existing
      cacheAfter := cached
      sigProbed := true
      startedBuild := false
      awaitedExisting := true
      scheduledBackground := false }
  else
    match buildAndCache scrape sig postSig now with
    | .ok rec =>
      { result := .ok rec
        cacheAfter := some rec
        sigProbed := true
        startedBuild := true
        awaitedExisting := false
        scheduledBackground := false }
    | .error e =>
      { result := .error e
        cacheAfter := cached
        sigProbed := true
        startedBuild := true
        awaitedExisting := false
        scheduledBackground := false }

/-- The preflight snapshot's `getDeckCached(provider, deckId, \x7bforce\x7d)`
(source lines 349-401). Parameters: `cached` is `deckCache.get(key)` at
entry, `inFlightHas` is `inFlight.has(key)` at the decision points, `sig`
is the preflight result (`null` on failure, failures being swallowed),
`scrape` is the outcome of the scraper were it run by this call, `postSig`
the post-build signature fetch outcome, `existing` the settlement of an
already-in-flight build. -/
def getDeckCachedSig (cached : Option CacheRecord) (inFlightHas : Bool) (force : Bool)
    (now : Nat) (sig : Option String) (scrape : Except String Payload)
    (postSig : Option String) (existing : Except String CacheRecord) : ResolveOutcome :=
  if force then
    match buildAndCache scrape none postSig now with
    | .ok rec =>
      { result := .ok rec
        cacheAfter := some rec
        sigProbed := false
        startedBuild := true
        awaitedExisting := false
        scheduledBackground := false }
    | .error e =>
      { result := .error e
        cacheAfter := cached
        sigProbed := false
        startedBuild := true
        awaitedExisting := false
        scheduledBackground := false }
  else
    match cached with
    | some rec =>
      if now < rec.freshUntil then
        { result := .ok rec
          cacheAfter := some rec
          sigProbed := false
          startedBuild := false
          awaitedExisting := false
          scheduledBackground := false }
      else if jsTruthyS sig && (rec.pageSig == sig) then
        let renewed := bumpFreshness rec now
        { result := .ok renewed
          cacheAfter := some renewed
          sigProbed := true
          startedBuild := false
          awaitedExisting := false
          scheduledBackground := false }
      else if now < rec.swrUntil then
        { result := .ok rec
          cacheAfter := some rec
          sigProbed := true
          startedBuild := false
          awaitedExisting := false
          scheduledBackground := !inFlightHas }
      else
        blockingRebuildSig (some rec) inFlightHas sig scrape postSig existing now
    | none =>
      blockingRebuildSig none inFlightHas sig scrape postSig existing now

/-- Observable outcome of one `server.js` `getDeckCached` call for one
key. `result` settles like the JavaScript call: `.error e` models a
rejection, `.ok (some rec)` a record, and `.ok none` models the call
fulfilling with `undefined`. -/
structure ResolveOutcomeSrv where
  result : Except String (Option CacheRecord)
  cacheAfter : Option CacheRecord
  startedBuild : Bool
  awaitedExisting : Bool
  scheduledBackground : Bool
deriving DecidableEq

/-- The `server.js` snapshot's `buildAndCache` (lines 425-432): scrape,
make a record (this snapshot has no page-signature logic), cache it; a
scrape failure rejects. -/
def buildAndCacheSrv (scrape : Except String Payload) (now : Nat) :
    Except String CacheRecord :=
  match scrape with
  | .ok p => .ok (makeCacheRecord p none now)
  | .error e => .error e

/-- Settlement of an in-flight promise as an awaiting caller observes it.
A promise installed by the blocking path (`buildAndCache(...).finally(...)`,
server.js line 412) rejects when the build fails; a promise installed by
the SWR path (`buildAndCache(...).catch(err => console.error(...))
.finally(...)`, server.js lines 400-402) has its rejection swallowed by
the `.catch` and fulfils with `undefined` when the build fails. -/
def inFlightSettlement (fromSWR : Bool) (build : Except String CacheRecord) :
    Except String (Option CacheRecord) :=
  match build with
  | .ok rec => .ok (some rec)
  | .error e => if fromSWR then .ok none else .error e

/-- The settlement a blocking `server.js` caller awaits: the already
in-flight promise when one exists (installed by either path), otherwise
its own blocking-path build (whose promise rejects on failure). -/
def awaitBuildSrv (inFlightHas existingFromSWR : Bool) (scrape : Except String Payload)
    (existingBuild : Except String CacheRecord) (now : Nat) :
    Except String (Option CacheRecord) :=
  if inFlightHas then inFlightSettlement existingFromSWR existingBuild
  else inFlightSettlement false (buildAndCacheSrv scrape now)

/-- The `server.js` snapshot's `getDeckCached(provider, deckId)` (source
lines 386-423): fresh hit, stale-while-revalidate, or blocking rebuild
whose `try/catch` falls back to any stale copy only when the awaited
promise rejects; a fulfilment — including an SWR-installed promise
fulfilling with `undefined` after a swallowed failure — is returned as
is. `existingBuild` is the underlying build outcome of an already
in-flight promise and `existingFromSWR` records which path installed it. -/
def getDeckCachedSrv (cached : Option CacheRecord) (inFlightHas existingFromSWR : Bool)
    (now : Nat) (scrape : Except String Payload)
    (existingBuild : Except String CacheRecord) : ResolveOutcomeSrv :=
  let blocking : ResolveOutcomeSrv :=
    match awaitBuildSrv inFlightHas existingFromSWR scrape existingBuild now with
    | .ok v =>
      { result := .ok v
        cacheAfter := if inFlightHas then cached else v
        startedBuild := !inFlightHas
        awaitedExisting := inFlightHas
        scheduledBackground := false }
    | .error e =>
      { result := match cached with
          | some c => .ok (some c)
          | none => .error e
        cacheAfter := cached
        startedBuild := !inFlightHas
        awaitedExisting := inFlightHas
        scheduledBackground := false }
  match cached with
  | some rec =>
    if now < rec.freshUntil then
      { result := .ok (some rec)
        cacheAfter := some rec
        startedBuild := false
        awaitedExisting := false
        scheduledBackground := false }
    else if now < rec.swrUntil then
      { result := .ok (some rec)
        cacheAfter := some rec
        startedBuild := false
        awaitedExisting := false
        scheduledBackground := !inFlightHas }
    else blocking
  | none => blocking

/-! Trace model of the in-flight map for the single-flight property. The
block from `inFlight.has(key)` to `inFlight.set(key, ...)` contains no
`await`, so on the event loop it executes atomically per caller; a caller
therefore either joins the build already in the slot or installs (and
thereby starts) a new one. `.finally(() => inFlight.delete(key))` clears
the slot when the build settles, on fulfilment and on rejection alike. -/

/-- State of the in-flight map for one key: the pending build occupying
the slot (by identity), the next build identity, and the builds started so
far, i.e. the scraper invocations. -/
structure FlightState where
  slot : Option Nat
  nextId : Nat
  started : List Nat
deriving DecidableEq

/-- One caller reaching the blocking-rebuild block: join the in-flight
build if there is one, otherwise register and start a new build. Returns
the identity of the build this caller awaits. -/
def callerStep (st : FlightState) : FlightState × Nat :=
  match st.slot with
  | some b => (st, b)
  | none =>
    ({ slot := some st.nextId, nextId := st.nextId + 1, started := st.started ++ [st.nextId] },
     st.nextId)

/-- A burst of `n` callers all reaching the blocking-rebuild block before
the build settles; returns the final state and each caller's awaited
build. -/
def runCallers : FlightState → Nat → FlightState × List Nat
  | st, 0 => (st, [])
  | st, n + 1 =>
    let p := callerStep st
    let q := runCallers p.1 n
    (q.1, p.2 :: q.2)

/-- Settlement of the in-flight build: the `.finally` handler deletes the
key from the map whatever the outcome was. -/
def settleFlight (st : FlightState) (_outcome : Except String CacheRecord) : FlightState :=
  { st with slot := none }

/-! Reference-level model of the deck record store, to distinguish in-place
field mutation from whole-record replacement. Records live in a heap of
cells; `slot` is the cache's reference for our key, and concurrent readers
hold cell references obtained from earlier `deckCache.get` calls. -/

/-- The record store: a heap of record cells and the cache's reference. -/
structure DeckStore where
  heap : List CacheRecord
  slot : Option Nat
deriving DecidableEq

/-- Dereference a previously obtained record reference. -/
def readRef (st : DeckStore) (i : Nat) : Option CacheRecord :=
  st.heap.get? i

/-- A successful build completion: `makeCacheRecord` allocates a brand-new
object and `deckCache.set(key, rec)` points the cache at it; no existing
cell is touched. -/
def installBuild (st : DeckStore) (rec : CacheRecord) : DeckStore :=
  { heap := st.heap ++ [rec], slot := some st.heap.length }

/-- The signature short-circuit's renewal: `bumpFreshness(cached)` assigns
`freshUntil` and `swrUntil` on the very object the cache already holds,
and `deckCache.set(key, renewed)` re-installs that same object. -/
def renewBySig (st : DeckStore) (now : Nat) : DeckStore :=
  match st.slot with
  | some i =>
    match st.heap.get? i with
    | some rec => { heap := st.heap.set i (bumpFreshness rec now), slot := some i }
    | none => st
  | none => st

/-! Payload assembly of `hydrateRowsToPayload` (part_007 lines 246-255):
the payload's `categoryOrder` is the deck-declared `meta.categoryOrder`
verbatim whenever it is non-empty, and only for a deck with no declared
categories is it derived from the hydrated entries. -/

/-- The part_007 payload shape `\x7bimages, categoryOrder, provider, deckId\x7d`
returned by `hydrateRowsToPayload`. -/
structure Payload7 where
  images : List Entry7
  categoryOrder : List String
  provider : String
  deckId : String
deriving DecidableEq

/-- The `categoryOrder` computed at part_007 lines 246-248:
`meta.categoryOrder && meta.categoryOrder.length ? meta.categoryOrder :
Array.from(new Set(images.flatMap(c => c.categories?.length ? c.categories
: [c.category || 'Uncategorized'])))`. -/
def hydrate7CategoryOrder (metaCategoryOrder : List String) (images : List Entry7) :
    List String :=
  if metaCategoryOrder.length ≠ 0 then metaCategoryOrder
  else
    dedupFirstSeen
      ((images.map (fun c =>
        if c.categories.length ≠ 0 then c.categories
        else [jsOrStr c.category "Uncategorized"])).join)

/-- The payload assembled by `hydrateRowsToPayload` from the parsed rows,
the lookup outcomes and the deck-level metadata. -/
def hydrateRowsToPayload (bySetNum : String → String → Except String ScryData)
    (byName : String → Except String ScryData) (rows : List Row7)
    (provider deckId : String) (metaCategoryOrder : List String) : Payload7 :=
  let images := hydrate7Images bySetNum byName rows
  { images := images
    categoryOrder := hydrate7CategoryOrder metaCategoryOrder images
    provider := provider
    deckId := deckId }

/-! Supporting lemmas shared by the claim theorems. -/

/-- The loop body of `scrapeArchidekt`'s hydration, expressed through the
per-row outcome. -/
theorem hydStep_eq (lookup : String → String → Except String ScryData)
    (images : List Entry) (card : Row) :
    hydStep lookup images card =
      match hydrateOne lookup card with
      | some e => images ++ [e]
      | none => images := by
  unfold hydStep hydrateOne
  cases lookup card.setCode card.collectorNumber with
  | error e => rfl
  | ok d =>
    rcases h : jsFrontBack d with ⟨front, back⟩
    cases front <;> simp [h]

/-- The loop body of `hydrateRowsToPayload`, expressed through the per-row
outcome. -/
theorem hyd7Step_eq (bySetNum : String → String → Except String ScryData)
    (byName : String → Except String ScryData)
    (images : List Entry7) (card : Row7) :
    hyd7Step bySetNum byName images card =
      match hydrateOne7 bySetNum byName card with
      | some e => images ++ [e]
      | none => images := by
  unfold hyd7Step hydrateOne7
  cases rowScryData bySetNum byName card with
  | error e => rfl
  | ok d =>
    rcases h : jsFrontBack d with ⟨front, back⟩
    cases front <;> simp [h]

/-- The hydration fold of `scrapeArchidekt`, for any accumulator. -/
theorem hydrateImages_go (lookup : String → String → Except String ScryData) :
    ∀ (rows : List Row) (acc : List Entry),
      rows.foldl (hydStep lookup) acc = acc ++ rows.filterMap (hydrateOne lookup) := by
  intro rows
  induction rows with
  | nil => intro acc; simp
  | cons r rs ih =>
    intro acc
    rw [List.foldl_cons, List.filterMap_cons, hydStep_eq]
    cases h : hydrateOne lookup r <;> simp [ih]

/-- The hydration loop of `scrapeArchidekt` keeps exactly the per-row
outcomes, in row order. -/
theorem hydrateImages_eq_filterMap (lookup : String → String → Except String ScryData)
    (rows : List Row) :
    hydrateImages lookup rows = rows.filterMap (hydrateOne lookup) := by
  unfold hydrateImages
  rw [hydrateImages_go]
  rfl

/-- The hydration fold of `hydrateRowsToPayload`, for any accumulator. -/
theorem hydrate7Images_go (bySetNum : String → String → Except String ScryData)
    (byName : String → Except String ScryData) :
    ∀ (rows : List Row7) (acc : List Entry7),
      rows.foldl (hyd7Step bySetNum byName) acc
        = acc ++ rows.filterMap (hydrateOne7 bySetNum byName) := by
  intro rows
  induction rows with
  | nil => intro acc; simp
  | cons r rs ih =>
    intro acc
    rw [List.foldl_cons, List.filterMap_cons, hyd7Step_eq]
    cases h : hydrateOne7 bySetNum byName r <;> simp [ih]

/-- The hydration loop of `hydrateRowsToPayload` keeps exactly the per-row
outcomes, in row order. -/
theorem hydrate7Images_eq_filterMap (bySetNum : String → String → Except String ScryData)
    (byName : String → Except String ScryData) (rows : List Row7) :
    hydrate7Images bySetNum byName rows = rows.filterMap (hydrateOne7 bySetNum byName) := by
  unfold hydrate7Images
  rw [hydrate7Images_go]
  rfl

/-- A `filterMap` has as many elements as there are inputs whose outcome is
present. -/
theorem length_filterMap_eq_length_filter {α β : Type} (f : α → Option β) :
    ∀ l : List α, (l.filterMap f).length = (l.filter (fun a => (f a).isSome)).length := by
  intro l
  induction l with
  | nil => rfl
  | cons x xs ih =>
    rw [List.filterMap_cons, List.filter_cons]
    cases h : f x <;> simp [h, ih]

/-- A row has a per-row hydration outcome in `hydrateRowsToPayload` exactly
when a front image URL was found for it. -/
theorem hydrateOne7_isSome_iff_rowFront (bySetNum : String → String → Except String ScryData)
    (byName : String → Except String ScryData) (card : Row7) :
    (hydrateOne7 bySetNum byName card).isSome = (rowFront bySetNum byName card).isSome := by
  unfold hydrateOne7 rowFront
  cases rowScryData bySetNum byName card with
  | error e => rfl
  | ok d =>
    rcases h : jsFrontBack d with ⟨front, back⟩
    cases front <;> simp [h]

/-- Membership after first-seen deduplication. -/
theorem mem_foldl_dedupStep (c : String) :
    ∀ (l acc : List String), c ∈ l.foldl dedupStep acc ↔ c ∈ acc ∨ c ∈ l := by
  intro l
  induction l with
  | nil => intro acc; simp
  | cons x xs ih =>
    intro acc
    rw [List.foldl_cons]
    by_cases hx : x ∈ acc
    · have h1 : dedupStep acc x = acc := by simp [dedupStep, hx]
      rw [h1, ih]
      simp only [List.mem_cons]
      constructor
      · rintro (h | h)
        · exact Or.inl h
        · exact Or.inr (Or.inr h)
      · rintro (h | rfl | h)
        · exact Or.inl h
        · exact Or.inl hx
        · exact Or.inr h
    · have h1 : dedupStep acc x = acc ++ [x] := by simp [dedupStep, hx]
      rw [h1, ih]
      simp only [List.mem_append, List.mem_singleton, List.mem_cons]
      tauto

/-- First-seen deduplication introduces no duplicates. -/
theorem nodup_foldl_dedupStep :
    ∀ (l acc : List String), acc.Nodup → (l.foldl dedupStep acc).Nodup := by
  intro l
  induction l with
  | nil => intro acc h; simpa using h
  | cons x xs ih =>
    intro acc h
    rw [List.foldl_cons]
    by_cases hx : x ∈ acc
    · have h1 : dedupStep acc x = acc := by simp [dedupStep, hx]
      rw [h1]
      exact ih acc h
    · have h1 : dedupStep acc x = acc ++ [x] := by simp [dedupStep, hx]
      rw [h1]
      apply ih
      simp [List.nodup_append, h, hx]

/-- Every element of `dedupFirstSeen l` is an element of `l` and
conversely. -/
theorem mem_dedupFirstSeen (c : String) (l : List String) :
    c ∈ dedupFirstSeen l ↔ c ∈ l := by
  unfold dedupFirstSeen
  rw [mem_foldl_dedupStep]
  simp

/-- `dedupFirstSeen` lists each element exactly once. -/
theorem nodup_dedupFirstSeen (l : List String) : (dedupFirstSeen l).Nodup :=
  nodup_foldl_dedupStep l [] List.nodup_nil

/-- A surviving row's entry carries the row's category. -/
theorem hydrateOne_category (lookup : String → String → Except String ScryData)
    (card : Row) (e : Entry) (h : hydrateOne lookup card = some e) :
    e.category = card.category := by
  unfold hydrateOne at h
  split at h
  · exact absurd h (by simp)
  · split at h
    · injection h with h'
      rw [← h']
      rfl
    · exact absurd h (by simp)

/-- When every row survives hydration, the hydrated entries carry the rows'
categories, in order. -/
theorem hydrate_categories_of_all_some (lookup : String → String → Except String ScryData) :
    ∀ rows : List Row, (∀ r ∈ rows, (hydrateOne lookup r).isSome) →
      (hydrateImages lookup rows).map (fun e => e.category)
        = rows.map (fun r => r.category) := by
  intro rows
  induction rows with
  | nil => intro _; rfl
  | cons r rs ih =>
    intro hall
    have hsome := hall r (List.mem_cons_self r rs)
    rcases Option.isSome_iff_exists.mp hsome with ⟨e, he⟩
    have hrs : ∀ x ∈ rs, (hydrateOne lookup x).isSome := by
      intro x hx
      exact hall x (List.mem_cons_of_mem r hx)
    have ihr := ih hrs
    rw [hydrateImages_eq_filterMap] at ihr ⊢
    rw [List.filterMap_cons, he]
    simp [ihr, hydrateOne_category lookup r e he]

/-! Claim theorems. -/

/-- C6: the weak entity tag is a deterministic function of the payload's
`images` and `categoryOrder` alone: two payloads agreeing on those two
fields get character-identical ETags, whatever their `deckHash`,
`provider`, `deckId` or any other metadata. -/
theorem etag_depends_only_on_visible (p q : Payload)
    (himg : p.images = q.images) (hcat : p.categoryOrder = q.categoryOrder) :
    weakEtagForPayload p = weakEtagForPayload q := by
  unfold weakEtagForPayload
  rw [himg, hcat]

/-- Concrete payloads sharing `images`/`categoryOrder` but differing in
`deckHash`, `provider` and `deckId`. -/
def wEntry : Entry :=
  ⟨"Sol Ring", 1, false, "c21", "1", "Artifacts", "u1", none⟩

/-- First concrete payload for the ETag determinism witness. -/
def wPayloadA : Payload := ⟨[wEntry], ["Artifacts"], "hashA", "archidekt", "123"⟩

/-- Second concrete payload, differing only in volatile metadata. -/
def wPayloadB : Payload := ⟨[wEntry], ["Artifacts"], "hashB", "moxfield", "999"⟩

/-- Witness for C6 at concrete payloads. -/
theorem etag_depends_only_on_visible_witness :
    weakEtagForPayload wPayloadA = weakEtagForPayload wPayloadB :=
  etag_depends_only_on_visible wPayloadA wPayloadB rfl rfl

/-- C7: a `resolve` call without `forceRebuild` that finds a fresh cached
record (`now < freshUntil`) returns it unchanged, leaves the cache as it
was, and makes no upstream contact at all: no preflight signature probe
(`sigProbed = false`), no scrape started, awaited or scheduled
(`startedBuild`, `awaitedExisting`, `scheduledBackground` all false) — and
since the Scryfall image lookups happen only inside a scrape, no image
lookups either. -/
theorem fresh_hit_no_upstream (rec : CacheRecord) (inFlightHas : Bool) (now : Nat)
    (sig : Option String) (scrape : Except String Payload) (postSig : Option String)
    (existing : Except String CacheRecord) (h : now < rec.freshUntil) :
    getDeckCachedSig (some rec) inFlightHas false now sig scrape postSig existing =
      { result := .ok rec, cacheAfter := some rec, sigProbed := false,
        startedBuild := false, awaitedExisting := false, scheduledBackground := false } := by
  unfold getDeckCachedSig
  simp [h]

/-- Payload for the fresh-hit witness. -/
def w7Payload : Payload := ⟨[], [], "dh7", "archidekt", "5"⟩

/-- Record for the fresh-hit witness, fresh until t=100. -/
def w7Rec : CacheRecord := ⟨w7Payload, "W/\"t7\"", "dh7", 100, 200, none⟩

/-- Witness for C7 at a concrete fresh record and clock. -/
theorem fresh_hit_no_upstream_witness :
    5 < w7Rec.freshUntil ∧
    getDeckCachedSig (some w7Rec) false false 5 none (Except.ok w7Payload) none
        (Except.ok w7Rec) =
      { result := .ok w7Rec, cacheAfter := some w7Rec, sigProbed := false,
        startedBuild := false, awaitedExisting := false, scheduledBackground := false } :=
  ⟨by decide,
   fresh_hit_no_upstream w7Rec false 5 none (Except.ok w7Payload) none (Except.ok w7Rec)
     (by decide)⟩

/-- Once a build occupies the slot, further callers change nothing and all
await that same build. -/
theorem runCallers_of_slot_some (b : Nat) :
    ∀ (n : Nat) (st : FlightState), st.slot = some b →
      runCallers st n = (st, List.replicate n b) := by
  intro n
  induction n with
  | zero => intro st h; rfl
  | succ m ih =>
    intro st h
    have hc : callerStep st = (st, b) := by
      unfold callerStep
      rw [h]
    simp only [runCallers, hc, ih st h, List.replicate_succ]

/-- C1: single-flight per key. Starting from an empty in-flight slot, a
burst of `n ≥ 1` callers that each require a blocking rebuild starts
exactly one build (`started = [0]`), and every caller awaits and receives
that same build's result (`replicate n 0`); and the `.finally` handler
clears the slot when the build settles, whatever the outcome. -/
theorem singleFlight_one_build (n : Nat) (hn : 1 ≤ n) :
    ((runCallers ⟨none, 0, []⟩ n).1.started = [0] ∧
     (runCallers ⟨none, 0, []⟩ n).2 = List.replicate n 0) ∧
    ∀ (st : FlightState) (outcome : Except String CacheRecord),
      (settleFlight st outcome).slot = none := by
  constructor
  · cases n with
    | zero => exact absurd hn (by decide)
    | succ m =>
      have h1 : callerStep ⟨none, 0, []⟩ = (⟨some 0, 1, [0]⟩, 0) := rfl
      have h2 := runCallers_of_slot_some 0 m ⟨some 0, 1, [0]⟩ rfl
      constructor
      · simp only [runCallers, h1, h2]
      · simp only [runCallers, h1, h2, List.replicate_succ]
  · intro st outcome
    rfl

/-- Witness for C1 with a burst of three callers and a failed settlement. -/
theorem singleFlight_one_build_witness :
    ((runCallers ⟨none, 0, []⟩ 3).1.started = [0] ∧
     (runCallers ⟨none, 0, []⟩ 3).2 = List.replicate 3 0) ∧
    (settleFlight ⟨some 0, 1, [0]⟩ (Except.error "build failed")).slot = none :=
  ⟨(singleFlight_one_build 3 (by decide)).1,
   (singleFlight_one_build 3 (by decide)).2 ⟨some 0, 1, [0]⟩ (Except.error "build failed")⟩

/-- C3: a `resolve` call without `forceRebuild` arriving at or after
`freshUntil`, whose preflight signature probe returns a non-empty value
equal to the record's stored `pageSig`, renews the record's freshness
windows forward from now (`freshUntil = now + FRESH_TTL_MS`,
`swrUntil = now + SWR_TTL_MS`), stores and returns the renewed record with
its payload and ETag untouched, and neither starts, awaits nor schedules
any scrape (`startedBuild`, `awaitedExisting`, `scheduledBackground` all
false) — in particular this holds between `freshUntil` and `swrUntil`.
(The stored `pageSig` is never the empty string: `makeCacheRecord` applies
`pageSig || null`, see `makeCacheRecord_pageSig_ne_empty`.) -/
theorem signature_short_circuit_no_extract (rec : CacheRecord) (inFlightHas : Bool)
    (now : Nat) (s : String) (scrape : Except String Payload) (postSig : Option String)
    (existing : Except String CacheRecord)
    (hstale : rec.freshUntil ≤ now) (hs : s ≠ "") (hmatch : rec.pageSig = some s) :
    getDeckCachedSig (some rec) inFlightHas false now (some s) scrape postSig existing =
      { result := .ok (bumpFreshness rec now),
        cacheAfter := some (bumpFreshness rec now),
        sigProbed := true, startedBuild := false, awaitedExisting := false,
        scheduledBackground := false } ∧
    (bumpFreshness rec now).freshUntil = now + FRESH_TTL_MS ∧
    (bumpFreshness rec now).swrUntil = now + SWR_TTL_MS ∧
    (bumpFreshness rec now).payload = rec.payload ∧
    (bumpFreshness rec now).etag = rec.etag := by
  have hnf : ¬ now < rec.freshUntil := not_lt.mpr hstale
  refine ⟨?_, rfl, rfl, rfl, rfl⟩
  unfold getDeckCachedSig
  simp [hnf, jsTruthyS, hs, hmatch]

/-- Records built by `makeCacheRecord` never store an empty-string
signature, because of the `pageSig || null` normalization; this justifies
the non-empty hypothesis of the signature short-circuit theorem. -/
theorem makeCacheRecord_pageSig_ne_empty (payload : Payload) (pageSig : Option String)
    (now : Nat) : (makeCacheRecord payload pageSig now).pageSig ≠ some "" := by
  unfold makeCacheRecord jsOrNullS jsOrS
  cases pageSig with
  | none => simp
  | some s =>
    by_cases h : s = "" <;> simp [h]

/-- Payload for the signature short-circuit witness. -/
def w3Payload : Payload := ⟨[], [], "dh3", "archidekt", "7"⟩

/-- Record for the signature short-circuit witness: stale at t=150 but
inside the SWR window, carrying a stored page signature. -/
def w3Rec : CacheRecord := ⟨w3Payload, "W/\"t3\"", "dh3", 100, 3600000, some "H|etag|lm|42"⟩

/-- Witness for C3: a stale-but-within-SWR call with a matching signature
renews without any scrape. -/
theorem signature_short_circuit_no_extract_witness :
    w3Rec.freshUntil ≤ 150 ∧ 150 < w3Rec.swrUntil ∧
    getDeckCachedSig (some w3Rec) false false 150 (some "H|etag|lm|42")
        (Except.ok w3Payload) none (Except.ok w3Rec) =
      { result := .ok (bumpFreshness w3Rec 150),
        cacheAfter := some (bumpFreshness w3Rec 150),
        sigProbed := true, startedBuild := false, awaitedExisting := false,
        scheduledBackground := false } :=
  ⟨by decide, by decide,
   (signature_short_circuit_no_extract w3Rec false 150 "H|etag|lm|42"
     (Except.ok w3Payload) none (Except.ok w3Rec) (by decide) (by decide) rfl).1⟩

/-- Payload for the force-rebuild analysis. -/
def w2Payload : Payload := ⟨[], [], "dh2", "archidekt", "11"⟩

/-- A record that is perfectly fresh at t=0. -/
def w2Rec : CacheRecord := ⟨w2Payload, "W/\"t2\"", "dh2", 1000, 2000, none⟩

/-- C2 counterexample: the force path is NOT deduplicated through the
in-flight map. With a build for the key already in flight
(`inFlightHas = true`), a `force` call still starts its own build
(`startedBuild = true`) instead of awaiting the in-flight one
(`awaitedExisting = false`); the freshness bypass itself is real
(the record is fresh and is still not served). -/
theorem force_bypasses_inflight_cex :
    isFresh (some w2Rec) 0 = true ∧
    (getDeckCachedSig (some w2Rec) true true 0 none (Except.ok w2Payload) none
        (Except.ok w2Rec)).startedBuild = true ∧
    (getDeckCachedSig (some w2Rec) true true 0 none (Except.ok w2Payload) none
        (Except.ok w2Rec)).awaitedExisting = false :=
  ⟨by decide, rfl, rfl⟩

/-- C2 amended: a `force` call bypasses every freshness check (no
freshness test, no preflight probe, no signature short-circuit, no SWR
serving) and always starts its own immediate rebuild, without consulting
or registering in the in-flight map; on success the new record replaces
whatever was cached for the key, and on failure the error propagates with
the cache left unchanged. -/
theorem force_rebuild_amended (cached : Option CacheRecord) (inFlightHas : Bool)
    (now : Nat) (sig : Option String) (scrape : Except String Payload)
    (postSig : Option String) (existing : Except String CacheRecord) :
    (getDeckCachedSig cached inFlightHas true now sig scrape postSig existing).sigProbed
      = false ∧
    (getDeckCachedSig cached inFlightHas true now sig scrape postSig existing).startedBuild
      = true ∧
    (getDeckCachedSig cached inFlightHas true now sig scrape postSig existing).awaitedExisting
      = false ∧
    (∀ p, scrape = Except.ok p →
      getDeckCachedSig cached inFlightHas true now sig scrape postSig existing =
        { result := .ok (makeCacheRecord p postSig now),
          cacheAfter := some (makeCacheRecord p postSig now),
          sigProbed := false, startedBuild := true, awaitedExisting := false,
          scheduledBackground := false }) ∧
    (∀ e, scrape = Except.error e →
      getDeckCachedSig cached inFlightHas true now sig scrape postSig existing =
        { result := .error e, cacheAfter := cached, sigProbed := false,
          startedBuild := true, awaitedExisting := false,
          scheduledBackground := false }) := by
  cases scrape with
  | ok p =>
    refine ⟨rfl, rfl, rfl, ?_, ?_⟩
    · intro p' hp
      injection hp with hp'
      subst hp'
      rfl
    · intro e he
      exact absurd he (by simp)
  | error e =>
    refine ⟨rfl, rfl, rfl, ?_, ?_⟩
    · intro p hp
      exact absurd hp (by simp)
    · intro e' he
      injection he with he'
      subst he'
      rfl

/-- Witness for the amended C2 at a concrete successful scrape, with a
build already in flight. -/
theorem force_rebuild_amended_witness :
    getDeckCachedSig (some w2Rec) true true 0 none (Except.ok w2Payload) none
        (Except.ok w2Rec) =
      { result := .ok (makeCacheRecord w2Payload none 0),
        cacheAfter := some (makeCacheRecord w2Payload none 0),
        sigProbed := false, startedBuild := true, awaitedExisting := false,
        scheduledBackground := false } :=
  (force_rebuild_amended (some w2Rec) true 0 none (Except.ok w2Payload) none
    (Except.ok w2Rec)).2.2.2.1 w2Payload rfl

/-- Payload for the stale-fallback analysis. -/
def w4Payload : Payload := ⟨[], [], "dh4", "moxfield", "m1"⟩

/-- Record for the stale-fallback analysis: past its SWR window at
t=4000000. -/
def w4Rec : CacheRecord := ⟨w4Payload, "W/\"t4\"", "dh4", 300000, 3600000, none⟩

/-- C4 counterexample: the stale fallback is not universal on the blocking
path. A caller past the SWR window that joins an in-flight build installed
by the SWR path (`buildAndCache(...).catch(err => console.error(...))
.finally(...)`, server.js line 401) gets a promise whose rejection was
swallowed: when the build fails, the promise fulfils with `undefined`, the
`try/catch` never fires, and the call returns `undefined` — not the stale
record that exists, and not an error. -/
theorem blocking_swr_join_undefined_cex :
    isFresh (some w4Rec) 4000000 = false ∧
    withinSWR (some w4Rec) 4000000 = false ∧
    (getDeckCachedSrv (some w4Rec) true true 4000000 (Except.ok w4Payload)
        (Except.error "scrape down")).result = Except.ok none ∧
    (getDeckCachedSrv (some w4Rec) true true 4000000 (Except.ok w4Payload)
        (Except.error "scrape down")).result ≠ Except.ok (some w4Rec) :=
  ⟨by decide, by decide, by decide, by decide⟩

/-- C4 amended: on the blocking-rebuild path, the `try/catch` stale
fallback applies exactly when the awaited promise rejects — the caller's
own build, or a joined promise installed by another blocking caller: then
a failing rebuild returns the stale record when one exists, and the build
error reaches the caller only when no prior record exists. But when the
joined promise was installed by the stale-while-revalidate path, its
`.catch` has swallowed the failure and the caller receives `undefined`
instead of the stale record. The cache is unchanged in both failure
cases. -/
theorem blocking_failure_stale_fallback_amended (cached : Option CacheRecord)
    (inFlightHas existingFromSWR : Bool) (now : Nat)
    (scrape : Except String Payload) (existingBuild : Except String CacheRecord)
    (hfresh : isFresh cached now = false) (hswr : withinSWR cached now = false) :
    (∀ e, awaitBuildSrv inFlightHas existingFromSWR scrape existingBuild now
        = Except.error e →
      (getDeckCachedSrv cached inFlightHas existingFromSWR now scrape existingBuild).result
        = (match cached with | some c => Except.ok (some c) | none => Except.error e) ∧
      (getDeckCachedSrv cached inFlightHas existingFromSWR now scrape existingBuild).cacheAfter
        = cached) ∧
    (∀ e, inFlightHas = true → existingFromSWR = true →
      existingBuild = Except.error e →
      (getDeckCachedSrv cached inFlightHas existingFromSWR now scrape existingBuild).result
        = Except.ok none ∧
      (getDeckCachedSrv cached inFlightHas existingFromSWR now scrape existingBuild).cacheAfter
        = cached) := by
  constructor
  · intro e hfail
    unfold getDeckCachedSrv
    cases cached with
    | none => simp [hfail]
    | some rec =>
      have h1 : ¬ now < rec.freshUntil := by simpa [isFresh] using hfresh
      have h2 : ¬ now < rec.swrUntil := by simpa [withinSWR] using hswr
      simp [h1, h2, hfail]
  · intro e hin hsw hex
    subst hin
    subst hsw
    subst hex
    have hsettle : awaitBuildSrv true true scrape (Except.error e) now
        = Except.ok none := by
      simp [awaitBuildSrv, inFlightSettlement]
    unfold getDeckCachedSrv
    cases cached with
    | none => simp [hsettle]
    | some rec =>
      have h1 : ¬ now < rec.freshUntil := by simpa [isFresh] using hfresh
      have h2 : ¬ now < rec.swrUntil := by simpa [withinSWR] using hswr
      simp [h1, h2, hsettle]

/-- Witness for the amended C4: a rejecting own build at a concrete stale
record falls back to the stale record, while a failing SWR-installed join
yields `undefined`. -/
theorem blocking_failure_stale_fallback_amended_witness :
    (getDeckCachedSrv (some w4Rec) false false 4000000 (Except.error "scrape down")
        (Except.ok w4Rec)).result = Except.ok (some w4Rec) ∧
    (getDeckCachedSrv (some w4Rec) false false 4000000 (Except.error "scrape down")
        (Except.ok w4Rec)).cacheAfter = some w4Rec ∧
    (getDeckCachedSrv (some w4Rec) true true 4000000 (Except.ok w4Payload)
        (Except.error "scrape down")).result = Except.ok none :=
  ⟨((blocking_failure_stale_fallback_amended (some w4Rec) false false 4000000
      (Except.error "scrape down") (Except.ok w4Rec) (by decide) (by decide)).1
      "scrape down" (by decide)).1,
   ((blocking_failure_stale_fallback_amended (some w4Rec) false false 4000000
      (Except.error "scrape down") (Except.ok w4Rec) (by decide) (by decide)).1
      "scrape down" (by decide)).2,
   ((blocking_failure_stale_fallback_amended (some w4Rec) true true 4000000
      (Except.ok w4Payload) (Except.error "scrape down") (by decide) (by decide)).2
      "scrape down" rfl rfl rfl).1⟩

/-- Payload for the record-store analysis. -/
def w5Payload : Payload := ⟨[], ["A"], "dh5", "archidekt", "55"⟩

/-- A stored record readable by concurrent resolve calls. -/
def w5Rec : CacheRecord := ⟨w5Payload, "W/\"t5\"", "dh5", 100, 200, some "sig5"⟩

/-- A store holding `w5Rec` in cell 0, with the cache pointing at it. -/
def w5Store : DeckStore := ⟨[w5Rec], some 0⟩

/-- C5 counterexample: the signature renewal is not a whole-record
replacement. `renewBySig` keeps the same cell (`slot` unchanged, no new
cell allocated) yet the record read through a reference obtained before
the update has changed — its freshness fields were mutated in place while
its payload stayed attached. -/
theorem record_renew_in_place_cex :
    (renewBySig w5Store 1000).slot = w5Store.slot ∧
    (renewBySig w5Store 1000).heap.length = w5Store.heap.length ∧
    readRef (renewBySig w5Store 1000) 0 ≠ readRef w5Store 0 ∧
    (readRef (renewBySig w5Store 1000) 0).map (fun r => r.payload)
      = (readRef w5Store 0).map (fun r => r.payload) :=
  ⟨rfl, rfl, by decide, by decide⟩

/-- C5 amended: build completions are whole-record installations — they
never touch any existing cell — while the one in-place update is the
signature renewal, which rewrites `freshUntil` and `swrUntil` together in
a single synchronous step and leaves the payload, ETag and stored
signature of that same record untouched, so the timestamps always describe
the payload attached to them. -/
theorem record_update_discipline_amended (st : DeckStore) (rec : CacheRecord) (now : Nat)
    (i : Nat) (r : CacheRecord) :
    (∀ j, j < st.heap.length → readRef (installBuild st rec) j = readRef st j) ∧
    (st.slot = some i → readRef st i = some r →
      readRef (renewBySig st now) i = some (bumpFreshness r now) ∧
      (bumpFreshness r now).payload = r.payload ∧
      (bumpFreshness r now).etag = r.etag ∧
      (bumpFreshness r now).pageSig = r.pageSig ∧
      (bumpFreshness r now).freshUntil = now + FRESH_TTL_MS ∧
      (bumpFreshness r now).swrUntil = now + SWR_TTL_MS) := by
  constructor
  · intro j hj
    unfold readRef installBuild
    exact List.get?_append hj
  · intro hslot hread
    unfold readRef at hread
    obtain ⟨hlen, -⟩ := List.get?_eq_some.mp hread
    refine ⟨?_, rfl, rfl, rfl, rfl, rfl⟩
    unfold renewBySig readRef
    rw [hslot]
    dsimp only
    rw [hread]
    dsimp only
    exact List.get?_set_eq_of_lt _ hlen

/-- Witness for the amended C5 at the concrete store. -/
theorem record_update_discipline_amended_witness :
    readRef (installBuild w5Store w5Rec) 0 = readRef w5Store 0 ∧
    readRef (renewBySig w5Store 1000) 0 = some (bumpFreshness w5Rec 1000) ∧
    (bumpFreshness w5Rec 1000).payload = w5Rec.payload :=
  ⟨(record_update_discipline_amended w5Store w5Rec 1000 0 w5Rec).1 0 (by decide),
   ((record_update_discipline_amended w5Store w5Rec 1000 0 w5Rec).2 rfl rfl).1,
   ((record_update_discipline_amended w5Store w5Rec 1000 0 w5Rec).2 rfl rfl).2.1⟩

/-- C8: partial tolerance of the hydration loop. A row whose Scryfall
lookup throws is omitted and the rest of the deck hydrates exactly as if
the row were absent (the loop never raises); a row whose lookup succeeds
with a front image contributes its entry at its position in row order. -/
theorem hydrate_partial_tolerance (lookup : String → String → Except String ScryData)
    (rows1 rows2 : List Row) (r : Row) :
    (∀ msg, lookup r.setCode r.collectorNumber = Except.error msg →
      hydrateImages lookup (rows1 ++ r :: rows2) = hydrateImages lookup (rows1 ++ rows2)) ∧
    (∀ d u back, lookup r.setCode r.collectorNumber = Except.ok d →
      jsFrontBack d = (some u, back) →
      hydrateImages lookup (rows1 ++ r :: rows2)
        = hydrateImages lookup rows1 ++ entryOfRow r u back :: hydrateImages lookup rows2) := by
  constructor
  · intro msg hmsg
    have hnone : hydrateOne lookup r = none := by
      simp [hydrateOne, hmsg]
    rw [hydrateImages_eq_filterMap, hydrateImages_eq_filterMap,
      List.filterMap_append, List.filterMap_append, List.filterMap_cons, hnone]
  · intro d u back hd hf
    have hsome : hydrateOne lookup r = some (entryOfRow r u back) := by
      simp [hydrateOne, hd, hf]
    rw [hydrateImages_eq_filterMap, hydrateImages_eq_filterMap, hydrateImages_eq_filterMap,
      List.filterMap_append, List.filterMap_cons, hsome]

/-- Lookup for the partial-tolerance witness: collector number 3 fails,
all others resolve with a front image. -/
def w8Lookup (_s cn : String) : Except String ScryData :=
  if cn = "3" then Except.error "boom" else Except.ok ⟨some ("img" ++ cn), []⟩

/-- Row maker for the partial-tolerance witness. -/
def w8Row (nm cn : String) : Row := ⟨nm, 1, false, "set", cn, "Cat"⟩

/-- Witness for C8: with five extracted rows and a lookup failure for
exactly one, the payload holds the other four and omits the failed one. -/
theorem hydrate_partial_tolerance_witness :
    hydrateImages w8Lookup
        [w8Row "c1" "1", w8Row "c2" "2", w8Row "c3" "3", w8Row "c4" "4", w8Row "c5" "5"]
      = hydrateImages w8Lookup
        [w8Row "c1" "1", w8Row "c2" "2", w8Row "c4" "4", w8Row "c5" "5"] ∧
    (hydrateImages w8Lookup
        [w8Row "c1" "1", w8Row "c2" "2", w8Row "c3" "3", w8Row "c4" "4", w8Row "c5" "5"]).length
      = 4 :=
  ⟨(hydrate_partial_tolerance w8Lookup [w8Row "c1" "1", w8Row "c2" "2"]
      [w8Row "c4" "4", w8Row "c5" "5"] (w8Row "c3" "3")).1 "boom" (by decide),
   by decide⟩

/-- C10: a row is silently dropped when its lookup succeeds but the card
data carries no front image URL, exactly as if the row were absent; and an
entry appears in the hydrated payload if and only if a front image URL was
found for its row — the image count equals the count of rows with a found
front image. -/
theorem hydrate_front_image_filter (bySetNum : String → String → Except String ScryData)
    (byName : String → Except String ScryData) (rows rows1 rows2 : List Row7) (r : Row7) :
    (∀ d, rowScryData bySetNum byName r = Except.ok d → (jsFrontBack d).1 = none →
      hydrate7Images bySetNum byName (rows1 ++ r :: rows2)
        = hydrate7Images bySetNum byName (rows1 ++ rows2)) ∧
    (hydrate7Images bySetNum byName rows).length
      = (rows.filter (fun c => (rowFront bySetNum byName c).isSome)).length := by
  constructor
  · intro d hd hfront
    rcases hf : jsFrontBack d with ⟨front, back⟩
    rw [hf] at hfront
    have hfr : front = none := by simpa using hfront
    subst hfr
    have hnone : hydrateOne7 bySetNum byName r = none := by
      simp [hydrateOne7, hd, hf]
    rw [hydrate7Images_eq_filterMap, hydrate7Images_eq_filterMap,
      List.filterMap_append, List.filterMap_append, List.filterMap_cons, hnone]
  · rw [hydrate7Images_eq_filterMap, length_filterMap_eq_length_filter]
    have hpt : (fun c => (hydrateOne7 bySetNum byName c).isSome)
        = (fun c => (rowFront bySetNum byName c).isSome) :=
      funext (hydrateOne7_isSome_iff_rowFront bySetNum byName)
    rw [hpt]

/-- Set/number lookup for the front-image-filter witness: number 1 has a
front image, number 2 resolves but has no image URIs, others fail. -/
def w10BySet (_s cn : String) : Except String ScryData :=
  if cn = "1" then Except.ok ⟨some "front1", []⟩
  else if cn = "2" then Except.ok ⟨none, []⟩
  else Except.error "no card"

/-- Exact-name lookup for the front-image-filter witness: always fails. -/
def w10ByName (_nm : String) : Except String ScryData :=
  Except.error "no card"

/-- Row maker for the front-image-filter witness. -/
def w10Row (nm cn : String) : Row7 :=
  ⟨nm, 1, false, ["Main"], "Main", some "set", some cn⟩

/-- Witness for C10: the no-front-image row is dropped as if absent, and
the image count matches the count of rows with a found front image. -/
theorem hydrate_front_image_filter_witness :
    hydrate7Images w10BySet w10ByName [w10Row "a" "1", w10Row "b" "2", w10Row "c" "3"]
      = hydrate7Images w10BySet w10ByName [w10Row "a" "1", w10Row "c" "3"] ∧
    (hydrate7Images w10BySet w10ByName [w10Row "a" "1", w10Row "b" "2", w10Row "c" "3"]).length
      = ([w10Row "a" "1", w10Row "b" "2", w10Row "c" "3"].filter
          (fun c => (rowFront w10BySet w10ByName c).isSome)).length :=
  ⟨(hydrate_front_image_filter w10BySet w10ByName [] [w10Row "a" "1"] [w10Row "c" "3"]
      (w10Row "b" "2")).1 ⟨none, []⟩ (by decide) (by decide),
   (hydrate_front_image_filter w10BySet w10ByName
      [w10Row "a" "1", w10Row "b" "2", w10Row "c" "3"] [] [] (w10Row "b" "2")).2⟩

/-- Row maker for the category-order counterexample. -/
def w9Row (nm cn cat : String) : Row := ⟨nm, 1, false, "s", cn, cat⟩

/-- Rows whose raw first-seen category order is X before Y. -/
def w9Rows : List Row := [w9Row "a" "1" "X", w9Row "b" "2" "Y", w9Row "c" "3" "X"]

/-- Lookup failing exactly for the first row (collector number 1). -/
def w9Lookup (_s cn : String) : Except String ScryData :=
  if cn = "1" then Except.error "down" else Except.ok ⟨some ("i" ++ cn), []⟩

/-- C9 counterexample: `categoryOrder` is computed from the *hydrated*
images, not the raw rows. When the only first-position occurrence of
category X fails its image lookup, the payload's order is Y before X,
while the raw rows' first-seen order is X before Y. -/
theorem categoryOrder_raw_order_cex :
    (scrapeArchidektPayload w9Lookup w9Rows "77").categoryOrder = ["Y", "X"] ∧
    specRawFirstSeenCategoryOrder w9Rows = ["X", "Y"] ∧
    (scrapeArchidektPayload w9Lookup w9Rows "77").categoryOrder
      ≠ specRawFirstSeenCategoryOrder w9Rows :=
  ⟨by decide, by decide, by decide⟩

/-- C9 amended, covering both snapshots the claim cites. In the
`scrapeArchidekt` path (part_000 line 290) the payload's `categoryOrder`
lists each distinct category of the *hydrated* entries exactly once, in
the first-seen order of the hydrated entries, and whenever every row
survives hydration this coincides with the first-seen order of the raw
extracted rows. In the `hydrateRowsToPayload` path (part_007 lines
246-248) a non-empty deck-declared category order is used verbatim,
independently of the hydrated entries; only for a deck declaring no
categories is `categoryOrder` the first-seen deduplication of the
hydrated entries' category lists. -/
theorem categoryOrder_amended (lookup : String → String → Except String ScryData)
    (rows : List Row) (deckId : String)
    (bySetNum : String → String → Except String ScryData)
    (byName : String → Except String ScryData) (rows7 : List Row7)
    (provider7 deckId7 : String) (metaCategoryOrder : List String) :
    (scrapeArchidektPayload lookup rows deckId).categoryOrder.Nodup ∧
    (scrapeArchidektPayload lookup rows deckId).categoryOrder
      = dedupFirstSeen ((scrapeArchidektPayload lookup rows deckId).images.map
          (fun e => jsOrStr e.category "Uncategorized")) ∧
    (∀ c, c ∈ (scrapeArchidektPayload lookup rows deckId).categoryOrder
      ↔ c ∈ (scrapeArchidektPayload lookup rows deckId).images.map
          (fun e => jsOrStr e.category "Uncategorized")) ∧
    ((∀ r ∈ rows, (hydrateOne lookup r).isSome) →
      (scrapeArchidektPayload lookup rows deckId).categoryOrder
        = specRawFirstSeenCategoryOrder rows) ∧
    (metaCategoryOrder ≠ [] →
      (hydrateRowsToPayload bySetNum byName rows7 provider7 deckId7
          metaCategoryOrder).categoryOrder = metaCategoryOrder) ∧
    (metaCategoryOrder = [] →
      (hydrateRowsToPayload bySetNum byName rows7 provider7 deckId7
          metaCategoryOrder).categoryOrder.Nodup ∧
      (∀ c, c ∈ (hydrateRowsToPayload bySetNum byName rows7 provider7 deckId7
            metaCategoryOrder).categoryOrder
        ↔ c ∈ ((hydrate7Images bySetNum byName rows7).map (fun en =>
            if en.categories.length ≠ 0 then en.categories
            else [jsOrStr en.category "Uncategorized"])).join)) := by
  have hcat : (scrapeArchidektPayload lookup rows deckId).categoryOrder
      = archidektCategoryOrder (hydrateImages lookup rows) := rfl
  have himg : (scrapeArchidektPayload lookup rows deckId).images
      = hydrateImages lookup rows := rfl
  have hcat7 : (hydrateRowsToPayload bySetNum byName rows7 provider7 deckId7
      metaCategoryOrder).categoryOrder
      = hydrate7CategoryOrder metaCategoryOrder (hydrate7Images bySetNum byName rows7) :=
    rfl
  refine ⟨?_, ?_, ?_, ?_, ?_, ?_⟩
  · rw [hcat]
    exact nodup_dedupFirstSeen _
  · rw [hcat, himg]
    rfl
  · intro c
    rw [hcat, himg]
    exact mem_dedupFirstSeen c _
  · intro hall
    rw [hcat]
    unfold archidektCategoryOrder specRawFirstSeenCategoryOrder
    congr 1
    have hmap := hydrate_categories_of_all_some lookup rows hall
    have h1 : (hydrateImages lookup rows).map (fun e => jsOrStr e.category "Uncategorized")
        = ((hydrateImages lookup rows).map (fun e => e.category)).map
            (fun c => jsOrStr c "Uncategorized") := by
      rw [List.map_map]
      rfl
    rw [h1, hmap, List.map_map]
    rfl
  · intro hmeta
    have hlen : metaCategoryOrder.length ≠ 0 :=
      fun hl => hmeta (List.length_eq_zero.mp hl)
    rw [hcat7]
    unfold hydrate7CategoryOrder
    rw [if_pos hlen]
  · intro hmeta
    subst hmeta
    have hlen : ¬ (([] : List String).length ≠ 0) := by simp
    rw [hcat7]
    unfold hydrate7CategoryOrder
    rw [if_neg hlen]
    exact ⟨nodup_dedupFirstSeen _, fun c => mem_dedupFirstSeen c _⟩

/-- The Sol Ring / Island deck of the spec's concrete scenario. -/
def w9bRows : List Row :=
  [⟨"Sol Ring", 1, false, "c21", "1", "Artifacts"⟩,
   ⟨"Island", 10, false, "c21", "2", "Lands"⟩]

/-- A lookup under which every row resolves with a front image. -/
def w9bLookup (_s cn : String) : Except String ScryData :=
  Except.ok ⟨some ("url" ++ cn), []⟩

/-- Lookups for the part_007 side of the category-order witness. -/
def w9cBySet (_s _cn : String) : Except String ScryData := Except.error "unused"

/-- Exact-name lookup for the part_007 side of the witness. -/
def w9cByName (_nm : String) : Except String ScryData := Except.error "unused"

/-- Witness for the amended C9: in the concrete scenario all lookups
succeed, the payload has two entries, and `categoryOrder` is
`["Artifacts", "Lands"]`, the raw first-seen order; and in the part_007
path a non-empty declared order is used verbatim even when no hydrated
entry carries those categories. -/
theorem categoryOrder_amended_witness :
    (scrapeArchidektPayload w9bLookup w9bRows "9").categoryOrder = ["Artifacts", "Lands"] ∧
    (scrapeArchidektPayload w9bLookup w9bRows "9").images.length = 2 ∧
    (scrapeArchidektPayload w9bLookup w9bRows "9").categoryOrder
      = specRawFirstSeenCategoryOrder w9bRows ∧
    (scrapeArchidektPayload w9bLookup w9bRows "9").categoryOrder.Nodup ∧
    (hydrateRowsToPayload w9cBySet w9cByName [] "archidekt" "9x"
        ["Lands", "Artifacts"]).categoryOrder = ["Lands", "Artifacts"] :=
  ⟨by decide, by decide,
   (categoryOrder_amended w9bLookup w9bRows "9" w9cBySet w9cByName [] "archidekt" "9x"
     ["Lands", "Artifacts"]).2.2.2.1 (by decide),
   (categoryOrder_amended w9bLookup w9bRows "9" w9cBySet w9cByName [] "archidekt" "9x"
     ["Lands", "Artifacts"]).1,
   (categoryOrder_amended w9bLookup w9bRows "9" w9cBySet w9cByName [] "archidekt" "9x"
     ["Lands", "Artifacts"]).2.2.2.2.1 (by decide)⟩
